import Mathlib

/-!
Verification of the darshan per-module record codec layer
(`darshan-util/darshan-lustre-logutils.c`, `darshan-util/darshan-stdio-logutils.c`).

The byte stream handed to a codec is modelled as a `List Nat` of byte values.
The container primitives (`darshan_log_get_mod`, `darshan_log_put_mod`), the
on-disk struct layouts and the size macros live in headers that are not part
of this repository snapshot; where a definition depends on them it is modelled
from the spec and says so in its doc comment.  The reading host is modelled as
little-endian, matching the spec's byte-order-mismatch flag semantics.

C leaves malloc'd memory and the unread tail of a short read indeterminate;
the model fills such bytes with zeros (any fixed choice would do).
Allocation and the container writer never fail in the model, so the
corresponding `-1` returns of the C code are unreachable here.
-/

set_option linter.unusedVariables false

/-! ## 64-bit words and bytes -/

/-- The eight bytes of a 64-bit value, least significant first
(the model's host memory order). -/
def w64ToBytes (v : Nat) : List Nat :=
  [v % 256, v / 2^8 % 256, v / 2^16 % 256, v / 2^24 % 256,
   v / 2^32 % 256, v / 2^40 % 256, v / 2^48 % 256, v / 2^56 % 256]

/-- Little-endian value of a byte list (each byte taken mod 256). -/
def bytesToW64 : List Nat → Nat
  | [] => 0
  | b :: rest => b % 256 + 256 * bytesToW64 rest

/-- `DARSHAN_BSWAP64`: reverse the eight bytes of a 64-bit value. -/
def bswap64 (v : Nat) : Nat := bytesToW64 (w64ToBytes v).reverse

/-- Reinterpret a 64-bit word as a two's-complement `int64_t`. -/
def toInt64 (w : Nat) : Int := if w < 2^63 then (w : Int) else (w : Int) - 2^64

/-- The 64-bit word holding an `int64_t` value (two's complement). -/
def toW64 (i : Int) : Nat := (i % 2^64).toNat

/-- Split a byte list into 64-bit words, eight bytes at a time;
a trailing group of fewer than eight bytes is dropped. -/
def chunk8 : List Nat → List Nat
  | b0 :: b1 :: b2 :: b3 :: b4 :: b5 :: b6 :: b7 :: rest =>
      bytesToW64 [b0, b1, b2, b3, b4, b5, b6, b7] :: chunk8 rest
  | _ => []

/-- Destination-buffer contents after a read that asked for `want` bytes and
got `got`: the bytes read followed by the buffer's unwritten tail, which C
leaves indeterminate and the model fixes as zeros. -/
def readFill (got : List Nat) (want : Nat) : List Nat :=
  got ++ List.replicate (want - got.length) 0

/-! ## Shared data model -/

/-- `struct darshan_base_record`: 64-bit record id and 64-bit rank. -/
structure darshan_base_record where
  id : Nat
  rank : Int
deriving Repr, DecidableEq

/-- Heap traffic performed by a codec call on the record buffer. -/
inductive MemEvent where
  | alloc
  | realloc
  | free
deriving Repr, DecidableEq

/-- A log handle restricted to one module's byte region:
the remaining region bytes, the module's on-disk format version
(`fd->mod_ver`), and the byte-order-mismatch flag (`fd->swap_flag`).
`fd->mod_map[mod].len` is the region length. -/
structure darshan_fd where
  stream : List Nat
  mod_ver : Nat
  swap_flag : Bool
deriving Repr, DecidableEq

/-! ## Lustre module: layout constants

Modelled from the spec: the layout header `darshan-lustre-log-format.h` is not
in this repository snapshot.  The spec names seven per-component counters
(stripe size, stripe count, stripe pattern, flags, extent start, extent end,
mirror id) and a bounded pool-name string; the legacy version is 1 and the
current version is the newer one, taken as 2. -/

def LUSTRE_COMP_STRIPE_SIZE : Nat := 0
def LUSTRE_COMP_STRIPE_COUNT : Nat := 1
def LUSTRE_COMP_STRIPE_PATTERN : Nat := 2
def LUSTRE_COMP_FLAGS : Nat := 3
def LUSTRE_COMP_EXT_START : Nat := 4
def LUSTRE_COMP_EXT_END : Nat := 5
def LUSTRE_COMP_MIRROR_ID : Nat := 6
def LUSTRE_COMP_NUM_INDICES : Nat := 7

/-- Modelled from the spec: bounded-length pool-name string storage. -/
def LUSTRE_POOL_NAME_LEN : Nat := 16

/-- Modelled from the spec: current Lustre module format version
(the legacy version is 1). -/
def DARSHAN_LUSTRE_VER : Nat := 2

/-- Serialized size of `struct darshan_lustre_component`:
the counters followed by the pool-name bytes. -/
def sizeof_lustre_component : Nat := 8 * LUSTRE_COMP_NUM_INDICES + LUSTRE_POOL_NAME_LEN

/-- `sizeof(struct darshan_base_record) + sizeof(int64_t)`: the fixed-size
prefix (base record plus `num_comps`) read by the variable-length get. -/
def lustre_fixed_size : Nat := 16 + 8

/-- Modelled from the spec (§4.5): the exact serialized length of a record is
header + components + identifiers; `LUSTRE_RECORD_SIZE(num_comps, num_osts)`. -/
def LUSTRE_RECORD_SIZE (num_comps num_osts : Int) : Int :=
  (lustre_fixed_size : Int) + num_comps * (sizeof_lustre_component : Int) + num_osts * 8

/-- One layout component: the fixed-length counter array and the pool-name
bytes (`struct darshan_lustre_component`). -/
structure darshan_lustre_component where
  counters : List Int
  pool_name : List Nat
deriving Repr, DecidableEq

/-- `struct darshan_lustre_record` as visible to callers: base record,
`num_comps`, the component sequence and the flattened OST identifier list
(the C pointers `comps`/`ost_ids` are the two sequences themselves). -/
structure darshan_lustre_record where
  base_rec : darshan_base_record
  num_comps : Int
  comps : List darshan_lustre_component
  ost_ids : List Nat
deriving Repr, DecidableEq

/-- Parse one component out of its 72 serialized bytes, applying
`DARSHAN_BSWAP64` to every counter when `swap` is set (the pool-name bytes
are untouched, as in the source's swap loop). -/
def parseComponent (swap : Bool) (bs : List Nat) : darshan_lustre_component :=
  { counters := (chunk8 (bs.take (8 * LUSTRE_COMP_NUM_INDICES))).map
      (fun w => toInt64 (if swap then bswap64 w else w)),
    pool_name := (bs.drop (8 * LUSTRE_COMP_NUM_INDICES)).take LUSTRE_POOL_NAME_LEN }

/-- Parse `n` consecutive components from the component region. -/
def parseComponents (swap : Bool) : Nat → List Nat → List darshan_lustre_component
  | 0, _ => []
  | n + 1, bs =>
      parseComponent swap (bs.take sizeof_lustre_component) ::
        parseComponents swap n (bs.drop sizeof_lustre_component)

/-- `num_osts` as both get and put compute it: the sum of every component's
stripe-count counter. -/
def lustre_num_osts (comps : List darshan_lustre_component) : Int :=
  comps.foldl (fun acc c => acc + c.counters.getD LUSTRE_COMP_STRIPE_COUNT 0) 0

/-- Everything a `darshan_log_get_lustre_record` call does that the caller can
observe: the return code, the value of `*lustre_buf_p` after the call
(`none` = NULL; `some r` = points at a buffer holding `r`), whether the
function assigned `*lustre_buf_p`, the heap traffic, and the two size
locals `comps_size` / `osts_size` (0 on paths that never compute them). -/
structure lustre_get_result where
  ret : Int
  out : Option darshan_lustre_record
  ptr_written : Bool
  events : List MemEvent
  comps_size : Int
  osts_size : Int
deriving Repr, DecidableEq

/-- `darshan_log_get_lustre_record_v1`: the legacy layout upgrader.  Reads the
seven-word fixed block, byte-swaps it if needed, synthesizes the single
component (stripe size/count from words 6 and 7, sentinels elsewhere, empty
pool name), then reads and optionally swaps `stripe_count` OST identifiers. -/
def darshan_log_get_lustre_record_v1 (fd : darshan_fd)
    (lustre_buf_p : Option darshan_lustre_record) : lustre_get_result :=
  let fixed : Nat := 7 * 8
  let got := fd.stream.take fixed
  let s1 := fd.stream.drop fixed
  let ret0 : Int := got.length
  if ret0 < 0 then ⟨-1, lustre_buf_p, false, [], 0, 0⟩
  else if ret0 < (fixed : Int) then ⟨0, lustre_buf_p, false, [], 0, 0⟩
  else
    let ws0 := chunk8 got
    let ws := if fd.swap_flag then ws0.map bswap64 else ws0
    let stripe_size : Int := toInt64 (ws.getD 5 0)
    let stripe_count : Int := toInt64 (ws.getD 6 0)
    let ev0 : List MemEvent := if lustre_buf_p.isNone then [.alloc] else []
    let base : darshan_base_record := ⟨ws.getD 0 0, toInt64 (ws.getD 1 0)⟩
    let comp : darshan_lustre_component :=
      { counters := [stripe_size, stripe_count, -1, -1, 0, -1, -1],
        pool_name := List.replicate LUSTRE_POOL_NAME_LEN 0 }
    let osts_size : Int := stripe_count * 8
    let gotO := s1.take osts_size.toNat
    let retO : Int := gotO.length
    let raw := chunk8 (readFill gotO osts_size.toNat)
    let ost_ids := if fd.swap_flag then raw.map bswap64 else raw
    let ret2 : Int := if retO < osts_size then -1 else 1
    let rec2 : darshan_lustre_record := ⟨base, 1, [comp], ost_ids⟩
    if lustre_buf_p.isNone then
      if ret2 = 1 then ⟨ret2, some rec2, true, ev0, 0, osts_size⟩
      else ⟨ret2, none, false, ev0 ++ [.free], 0, osts_size⟩
    else ⟨ret2, some rec2, false, ev0, 0, osts_size⟩

/-- Fixed-prefix read of the variable-length path: the bytes
`darshan_log_get_mod` stores into `tmp_rec`. -/
def lustre_hdr_got (fd : darshan_fd) : List Nat := fd.stream.take lustre_fixed_size

/-- Return value of the fixed-prefix read (bytes obtained). -/
def lustre_ret0 (fd : darshan_fd) : Int := (lustre_hdr_got fd).length

/-- Header word `i` of `tmp_rec` after the conditional byte swap
(0 = id, 1 = rank, 2 = `num_comps`). -/
def lustre_hdr_word (fd : darshan_fd) (i : Nat) : Nat :=
  if fd.swap_flag then bswap64 ((chunk8 (lustre_hdr_got fd)).getD i 0)
  else (chunk8 (lustre_hdr_got fd)).getD i 0

/-- The (possibly swapped) base record copied out of `tmp_rec`. -/
def lustre_base (fd : darshan_fd) : darshan_base_record :=
  ⟨lustre_hdr_word fd 0, toInt64 (lustre_hdr_word fd 1)⟩

/-- `tmp_rec.num_comps` after the conditional byte swap. -/
def lustre_nc (fd : darshan_fd) : Int := toInt64 (lustre_hdr_word fd 2)

/-- `comps_size = tmp_rec.num_comps * sizeof(*tmp_rec.comps)`. -/
def lustre_comps_size (fd : darshan_fd) : Int :=
  lustre_nc fd * (sizeof_lustre_component : Nat)

/-- The record built on the `num_comps < 1` path: header copied, `comps` and
`ost_ids` set to NULL. -/
def lustre_rec0 (fd : darshan_fd) : darshan_lustre_record :=
  ⟨lustre_base fd, lustre_nc fd, [], []⟩

/-- Stream remainder after the fixed prefix. -/
def lustre_s1 (fd : darshan_fd) : List Nat := fd.stream.drop lustre_fixed_size

/-- Bytes obtained by the component-region read. -/
def lustre_gotC (fd : darshan_fd) : List Nat :=
  (lustre_s1 fd).take (lustre_comps_size fd).toNat

/-- Return value of the component-region read. -/
def lustre_retC (fd : darshan_fd) : Int := (lustre_gotC fd).length

/-- The component array as it sits in the record buffer after the component
read and conditional swap (a short read leaves the modelled zero fill). -/
def lustre_comps (fd : darshan_fd) : List darshan_lustre_component :=
  parseComponents fd.swap_flag (lustre_nc fd).toNat
    (readFill (lustre_gotC fd) (lustre_comps_size fd).toNat)

/-- `osts_size = num_osts * sizeof(*tmp_rec.ost_ids)`, with `num_osts` summed
over the post-swap stripe counts. -/
def lustre_osts_size (fd : darshan_fd) : Int := lustre_num_osts (lustre_comps fd) * 8

/-- Stream remainder after the component region. -/
def lustre_s2 (fd : darshan_fd) : List Nat :=
  (lustre_s1 fd).drop (lustre_comps_size fd).toNat

/-- Bytes obtained by the OST-list read. -/
def lustre_gotO (fd : darshan_fd) : List Nat :=
  (lustre_s2 fd).take (lustre_osts_size fd).toNat

/-- Return value of the OST-list read. -/
def lustre_retO (fd : darshan_fd) : Int := (lustre_gotO fd).length

/-- The OST identifier array after the read and conditional swap. -/
def lustre_ids (fd : darshan_fd) : List Nat :=
  if fd.swap_flag then
    (chunk8 (readFill (lustre_gotO fd) (lustre_osts_size fd).toNat)).map bswap64
  else chunk8 (readFill (lustre_gotO fd) (lustre_osts_size fd).toNat)

/-- The final return code of the `num_comps ≥ 1` path: the OST-list read's
outcome unconditionally overwrites the component read's -1 (as in the
source). -/
def lustre_ret2 (fd : darshan_fd) : Int :=
  if lustre_retO fd < lustre_osts_size fd then -1 else 1

/-- The fully assembled record of the `num_comps ≥ 1` path. -/
def lustre_rec2 (fd : darshan_fd) : darshan_lustre_record :=
  ⟨lustre_base fd, lustre_nc fd, lustre_comps fd, lustre_ids fd⟩

/-- `darshan_log_get_lustre_record`: the variable-length read path.  Mirrors
the C control flow: region-absent and version checks, the version-1 dispatch,
the fixed-prefix read, conditional byte swap of the header before any size
computation, the component read (whose short-read -1 is later overwritten,
exactly as in the source), the OST-list read, and the final `*lustre_buf_p`
delivery that only happens when the code equals 1.  The intermediate values
are the named `lustre_*` definitions above, one per C local. -/
def darshan_log_get_lustre_record (fd : darshan_fd)
    (lustre_buf_p : Option darshan_lustre_record) : lustre_get_result :=
  if fd.stream.length = 0 then ⟨0, lustre_buf_p, false, [], 0, 0⟩
  else if fd.mod_ver = 0 ∨ fd.mod_ver > DARSHAN_LUSTRE_VER then
    ⟨-1, lustre_buf_p, false, [], 0, 0⟩
  else if fd.mod_ver = 1 then darshan_log_get_lustre_record_v1 fd lustre_buf_p
  else if lustre_ret0 fd < 0 then ⟨-1, lustre_buf_p, false, [], 0, 0⟩
  else if lustre_ret0 fd < (lustre_fixed_size : Nat) then ⟨0, lustre_buf_p, false, [], 0, 0⟩
  else if lustre_nc fd < 1 then
    if lustre_buf_p.isNone then
      ⟨lustre_ret0 fd, none, false, [.alloc, .free], lustre_comps_size fd, 0⟩
    else ⟨lustre_ret0 fd, some (lustre_rec0 fd), false, [], lustre_comps_size fd, 0⟩
  else
    if lustre_buf_p.isNone then
      if lustre_ret2 fd = 1 then
        ⟨lustre_ret2 fd, some (lustre_rec2 fd), true, [.alloc, .realloc],
          lustre_comps_size fd, lustre_osts_size fd⟩
      else
        ⟨lustre_ret2 fd, none, false, [.alloc, .realloc, .free],
          lustre_comps_size fd, lustre_osts_size fd⟩
    else
      ⟨lustre_ret2 fd, some (lustre_rec2 fd), false, [],
        lustre_comps_size fd, lustre_osts_size fd⟩

/-! ## Lustre module: write path -/

/-- In-memory image of a base record (two 64-bit fields). -/
def serialize_base (b : darshan_base_record) : List Nat :=
  w64ToBytes b.id ++ w64ToBytes (toW64 b.rank)

/-- In-memory image of one component: counters then pool-name bytes. -/
def serialize_component (c : darshan_lustre_component) : List Nat :=
  (c.counters.map (fun i => w64ToBytes (toW64 i))).flatten ++ c.pool_name

/-- Modelled from the spec (§4.5): the record's serialized image, laid out as
header, then the component array, then the identifier array. -/
def serialize_lustre (r : darshan_lustre_record) : List Nat :=
  serialize_base r.base_rec ++ w64ToBytes (toW64 r.num_comps)
    ++ (r.comps.map serialize_component).flatten
    ++ (r.ost_ids.map w64ToBytes).flatten

/-- What a put call hands to the container writer. -/
structure put_result where
  ret : Int
  written : List Nat
  version : Nat
deriving Repr, DecidableEq

/-- `darshan_log_put_lustre_record`: re-derive `num_osts` from the current
stripe counts, then hand `LUSTRE_RECORD_SIZE(num_comps, num_osts)` bytes of
the record image to the writer, tagged `DARSHAN_LUSTRE_VER`.  The model's
writer never fails, so the C `-1` path is unreachable. -/
def darshan_log_put_lustre_record (r : darshan_lustre_record) : put_result :=
  let num_osts := lustre_num_osts r.comps
  ⟨0, (serialize_lustre r).take (LUSTRE_RECORD_SIZE r.num_comps num_osts).toNat,
    DARSHAN_LUSTRE_VER⟩

/-! ## Lustre module: printing and diffing -/

/-- The twelve flag labels (comma included) in the table's order. -/
def lustre_flag_labels : List (List Char) :=
  [r"stale,".data, r"prefrd,".data, r"prefwr,".data, r"offline,".data,
   r"init,".data, r"nosync,".data, r"extension,".data, r"parity,".data,
   r"compress,".data, r"partial,".data, r"nocompr,".data, r"neg,".data]

/-- `strncat(dst, src, 64 - strlen(dst))` on the 64-byte `flag_str` buffer:
appends at most the remaining space's worth of characters.  (When the clip
is hit, the C call also stores its terminating NUL one byte past the
64-byte array.) -/
def flag_strncat (dst src : List Char) : List Char :=
  dst ++ src.take (64 - dst.length)

/-- The flags-counter rendering of `darshan_log_print_lustre_record`
(lines 305-337): for each of the twelve bits in order, append that label when
the bit is set; an empty result prints "0", otherwise the trailing comma is
dropped; the all-ones `uint64_t` sentinel prints "N/A". -/
def lustre_flag_string (counter : Int) : List Char :=
  let flags : Nat := toW64 counter
  let s := (List.range 12).foldl
    (fun acc k => if flags.testBit k then flag_strncat acc (lustre_flag_labels.getD k []) else acc)
    []
  let s2 := if s ≠ [] then s.dropLast else "0".data
  if flags = 2 ^ 64 - 1 then "N/A".data else s2

/-- `darshan_log_print_lustre_record_diff`: the entire comparison body in the
source is disabled by `#if 0` (it was written for the legacy single-component
shape and never updated), so the compiled function emits no output lines for
any pair of optional records. -/
def darshan_log_print_lustre_record_diff (rec1 : Option darshan_lustre_record)
    (file_name1 : String) (rec2 : Option darshan_lustre_record)
    (file_name2 : String) : List String :=
  []

/-! ## STDIO module

Layout constants modelled from the spec: `darshan-stdio-log-format.h` is not
in this repository snapshot; the spec only says both counter arrays have
compile-time-fixed length, so representative counts are chosen.  No claim
depends on the particular counts (only on the record being larger than one
byte, which holds for any counts).  The floating-point counters are byte
swapped as opaque 8-byte values in the source and are modelled as their raw
64-bit words. -/

def STDIO_NUM_INDICES : Nat := 13
def STDIO_F_NUM_INDICES : Nat := 15

/-- Modelled from the spec: current STDIO module format version. -/
def DARSHAN_STDIO_VER : Nat := 2

/-- `sizeof(struct darshan_stdio_file)`: base record, integer counters,
floating-point counters. -/
def sizeof_darshan_stdio_file : Nat :=
  16 + 8 * STDIO_NUM_INDICES + 8 * STDIO_F_NUM_INDICES

/-- `struct darshan_stdio_file`: base record, fixed integer counters, fixed
floating-point counters (kept as raw 64-bit words). -/
structure darshan_stdio_file where
  base_rec : darshan_base_record
  counters : List Int
  fcounters : List Nat
deriving Repr, DecidableEq

/-- Observable outcome of `darshan_log_get_stdio_record`. -/
structure stdio_get_result where
  ret : Int
  out : Option darshan_stdio_file
  ptr_written : Bool
  events : List MemEvent
deriving Repr, DecidableEq

/-- Build the stdio record from the 30 words of its buffer. -/
def parse_stdio (ws : List Nat) : darshan_stdio_file :=
  ⟨⟨ws.getD 0 0, toInt64 (ws.getD 1 0)⟩,
   ((ws.drop 2).take STDIO_NUM_INDICES).map toInt64,
   (ws.drop (2 + STDIO_NUM_INDICES)).take STDIO_F_NUM_INDICES⟩

/-- `darshan_log_get_stdio_record`: allocate when `*stdio_buf_p` is NULL,
read `sizeof(struct darshan_stdio_file)` bytes, deliver the buffer through
`*stdio_buf_p` exactly when the read returned the full size (freeing it
otherwise), return 0 on an absent region or short read, and byte-swap every
field only after a full read.  The model's stream never errors, so the C
`-1` return is unreachable. -/
def darshan_log_get_stdio_record (fd : darshan_fd)
    (stdio_buf_p : Option darshan_stdio_file) : stdio_get_result :=
  if fd.stream.length = 0 then ⟨0, stdio_buf_p, false, []⟩
  else
    let ev0 : List MemEvent := if stdio_buf_p.isNone then [.alloc] else []
    let got := fd.stream.take sizeof_darshan_stdio_file
    let ret0 : Int := got.length
    let ws := chunk8 (readFill got sizeof_darshan_stdio_file)
    let full : Bool := ret0 = (sizeof_darshan_stdio_file : Int)
    let content := parse_stdio (if full && fd.swap_flag then ws.map bswap64 else ws)
    if stdio_buf_p.isNone then
      if full then ⟨1, some content, true, ev0⟩
      else ⟨0, none, false, ev0 ++ [.free]⟩
    else ⟨if full then 1 else 0, some content, false, ev0⟩

/-- In-memory image of a stdio record. -/
def serialize_stdio (f : darshan_stdio_file) : List Nat :=
  serialize_base f.base_rec
    ++ (f.counters.map (fun i => w64ToBytes (toW64 i))).flatten
    ++ (f.fcounters.map w64ToBytes).flatten

/-- `darshan_log_put_stdio_record`: writes `sizeof(struct darshan_stdio_file)`
bytes tagged `DARSHAN_STDIO_VER`; the `ver` argument is never read by the
source, which passes the compile-time constant to the writer. -/
def darshan_log_put_stdio_record (f : darshan_stdio_file) (ver : Nat) : put_result :=
  ⟨0, (serialize_stdio f).take sizeof_darshan_stdio_file, DARSHAN_STDIO_VER⟩

/-! ## Well-formedness invariants of decoded Lustre records -/

/-- Structural invariant of a decoded component: full-length counter array,
full-length pool-name storage, counters in `int64_t` range. -/
def LustreCompWF (c : darshan_lustre_component) : Prop :=
  c.counters.length = LUSTRE_COMP_NUM_INDICES ∧
  c.pool_name.length = LUSTRE_POOL_NAME_LEN ∧
  ∀ x ∈ c.counters, -(2 ^ 63) ≤ x ∧ x < 2 ^ 63

/-- Structural invariant of a record delivered by the variable-length read
path: in-range header fields, `num_comps` matching the component count, and
an identifier list whose length is the sum of the stripe counts. -/
def LustreWF (r : darshan_lustre_record) : Prop :=
  1 ≤ r.num_comps ∧ r.num_comps < 2 ^ 63 ∧
  r.base_rec.id < 2 ^ 64 ∧
  -(2 ^ 63) ≤ r.base_rec.rank ∧ r.base_rec.rank < 2 ^ 63 ∧
  (r.comps.length : Int) = r.num_comps ∧
  (∀ c ∈ r.comps, LustreCompWF c) ∧
  (∀ w ∈ r.ost_ids, w < 2 ^ 64) ∧
  (r.ost_ids.length : Int) = lustre_num_osts r.comps

/-! ## Concrete inputs used by witnesses and counterexamples -/

/-- A current-format stream: one component (stripe count 2) and two OST ids. -/
def lustre_sample_stream : List Nat :=
  w64ToBytes 5 ++ w64ToBytes (toW64 (-3)) ++ w64ToBytes 1
    ++ (w64ToBytes 65536 ++ w64ToBytes 2 ++ w64ToBytes 0 ++ w64ToBytes 5
        ++ w64ToBytes 0 ++ w64ToBytes 100 ++ w64ToBytes 1
        ++ (List.range LUSTRE_POOL_NAME_LEN).map (fun i => i + 64))
    ++ w64ToBytes 17 ++ w64ToBytes 18

/-- The record `lustre_sample_stream` decodes to. -/
def lustre_sample_record : darshan_lustre_record :=
  ⟨⟨5, -3⟩, 1,
   [⟨[65536, 2, 0, 5, 0, 100, 1], (List.range LUSTRE_POOL_NAME_LEN).map (fun i => i + 64)⟩],
   [17, 18]⟩

/-- A truncated stream: valid header claiming `num_comps = 2`, then only one
component's worth of bytes (all zero), then end of region. -/
def lustre_truncated_stream : List Nat :=
  w64ToBytes 7 ++ w64ToBytes 3 ++ w64ToBytes 2 ++ List.replicate sizeof_lustre_component 0

/-- A header-only stream declaring `num_comps = 0`. -/
def lustre_empty_stream : List Nat :=
  w64ToBytes 5 ++ w64ToBytes 9 ++ w64ToBytes 0

/-- The empty-arrays record the `num_comps = 0` header describes. -/
def lustre_empty_record : darshan_lustre_record := ⟨⟨5, 9⟩, 0, [], []⟩

/-- An all-zero component, as the modelled uninitialized buffer parses it. -/
def lustre_zero_component : darshan_lustre_component :=
  ⟨[0, 0, 0, 0, 0, 0, 0], List.replicate LUSTRE_POOL_NAME_LEN 0⟩

/-- A concrete stdio record for counterexamples. -/
def stdio_sample_record : darshan_stdio_file :=
  ⟨⟨42, 0⟩, List.replicate STDIO_NUM_INDICES 1, List.replicate STDIO_F_NUM_INDICES 0⟩

/-- Log name arguments used in concrete diff calls. -/
def diff_log_name1 : String := "log1"

/-- Log name arguments used in concrete diff calls. -/
def diff_log_name2 : String := "log2"

/-! ## Arithmetic and list helper lemmas -/

theorem w64ToBytes_length (v : Nat) : (w64ToBytes v).length = 8 := by
  simp [w64ToBytes]

theorem bytesToW64_w64ToBytes (v : Nat) : bytesToW64 (w64ToBytes v) = v % 2 ^ 64 := by
  simp only [w64ToBytes, bytesToW64]
  norm_num
  omega

theorem bytesToW64_lt_pow (bs : List Nat) : bytesToW64 bs < 256 ^ bs.length := by
  induction bs with
  | nil => simp [bytesToW64]
  | cons b t ih =>
    simp only [bytesToW64, List.length_cons, pow_succ]
    have hb : b % 256 < 256 := Nat.mod_lt _ (by norm_num)
    calc b % 256 + 256 * bytesToW64 t
        < 256 * (bytesToW64 t + 1) := by omega
      _ ≤ 256 * 256 ^ t.length := Nat.mul_le_mul_left _ (by omega)
      _ = 256 ^ t.length * 256 := Nat.mul_comm _ _

theorem bytesToW64_lt (bs : List Nat) (h : bs.length ≤ 8) : bytesToW64 bs < 2 ^ 64 := by
  calc bytesToW64 bs < 256 ^ bs.length := bytesToW64_lt_pow bs
    _ ≤ 256 ^ 8 := Nat.pow_le_pow_right (by norm_num) h
    _ = 2 ^ 64 := by norm_num

theorem bswap64_lt (v : Nat) : bswap64 v < 2 ^ 64 := by
  unfold bswap64
  exact bytesToW64_lt _ (by simp [w64ToBytes_length])

theorem toW64_lt (i : Int) : toW64 i < 2 ^ 64 := by
  unfold toW64
  omega

theorem toInt64_lb (w : Nat) : -(2 ^ 63) ≤ toInt64 w := by
  unfold toInt64
  split <;> omega

theorem toInt64_ub (w : Nat) (h : w < 2 ^ 64) : toInt64 w < 2 ^ 63 := by
  unfold toInt64
  split <;> omega

theorem toW64_toInt64 (w : Nat) (h : w < 2 ^ 64) : toW64 (toInt64 w) = w := by
  unfold toW64 toInt64
  split <;> omega

theorem toInt64_toW64 (i : Int) (h1 : -(2 ^ 63) ≤ i) (h2 : i < 2 ^ 63) :
    toInt64 (toW64 i) = i := by
  unfold toW64 toInt64
  split <;> omega

theorem chunk8_short (bs : List Nat) (h : bs.length < 8) : chunk8 bs = [] := by
  rcases bs with _ | ⟨a, _ | ⟨b, _ | ⟨c, _ | ⟨d, _ | ⟨e, _ | ⟨f, _ | ⟨g, _ | ⟨a8, t⟩⟩⟩⟩⟩⟩⟩⟩ <;>
    first
      | rfl
      | (simp only [List.length_cons] at h; omega)

theorem chunk8_append (bs rest : List Nat) (h : bs.length = 8) :
    chunk8 (bs ++ rest) = bytesToW64 bs :: chunk8 rest := by
  rcases bs with _ | ⟨a, _ | ⟨b, _ | ⟨c, _ | ⟨d, _ | ⟨e, _ | ⟨f, _ | ⟨g, _ | ⟨a8, t⟩⟩⟩⟩⟩⟩⟩⟩ <;>
    simp only [List.length_cons, List.length_nil] at h <;>
    first
      | omega
      | (obtain rfl : t = [] := List.eq_nil_of_length_eq_zero (by omega)
         rfl)

theorem chunk8_eq_of_le (bs : List Nat) (h : 8 ≤ bs.length) :
    chunk8 bs = bytesToW64 (bs.take 8) :: chunk8 (bs.drop 8) := by
  conv_lhs => rw [← List.take_append_drop 8 bs]
  exact chunk8_append _ _ (by simp [List.length_take]; omega)

theorem chunk8_w64ToBytes (x : Nat) : chunk8 (w64ToBytes x) = [x % 2 ^ 64] := by
  have := chunk8_append (w64ToBytes x) [] (w64ToBytes_length x)
  simpa [bytesToW64_w64ToBytes] using this

theorem chunk8_length_mul : ∀ (k : Nat) (bs : List Nat), bs.length = 8 * k →
    (chunk8 bs).length = k := by
  intro k
  induction k with
  | zero =>
    intro bs h
    obtain rfl : bs = [] := List.eq_nil_of_length_eq_zero (by omega)
    rfl
  | succ n ih =>
    intro bs h
    rw [chunk8_eq_of_le bs (by omega)]
    simp only [List.length_cons]
    rw [ih (bs.drop 8) (by simp; omega)]

theorem chunk8_words_lt : ∀ (k : Nat) (bs : List Nat), bs.length ≤ 8 * k →
    ∀ w ∈ chunk8 bs, w < 2 ^ 64 := by
  intro k
  induction k with
  | zero =>
    intro bs h w hw
    obtain rfl : bs = [] := List.eq_nil_of_length_eq_zero (by omega)
    simp [chunk8] at hw
  | succ n ih =>
    intro bs h w hw
    by_cases h8 : 8 ≤ bs.length
    · rw [chunk8_eq_of_le bs h8, List.mem_cons] at hw
      rcases hw with hw | hw
      · subst hw
        exact bytesToW64_lt _ (by simp)
      · exact ih (bs.drop 8) (by simp; omega) w hw
    · rw [chunk8_short bs (by omega)] at hw
      simp at hw

theorem chunk8_mem_lt (bs : List Nat) (w : Nat) (hw : w ∈ chunk8 bs) : w < 2 ^ 64 :=
  chunk8_words_lt bs.length bs (by omega) w hw

theorem w64_flatten_length (ws : List Nat) :
    ((ws.map w64ToBytes).flatten).length = 8 * ws.length := by
  induction ws with
  | nil => simp
  | cons w t ih => simp [ih, w64ToBytes_length]; omega

theorem chunk8_w64_flatten (ws : List Nat) :
    chunk8 ((ws.map w64ToBytes).flatten) = ws.map (· % 2 ^ 64) := by
  induction ws with
  | nil => rfl
  | cons w t ih =>
    simp only [List.map_cons, List.flatten_cons]
    rw [chunk8_append _ _ (w64ToBytes_length w), bytesToW64_w64ToBytes, ih]

theorem chunk8_w64_flatten_of_lt (ws : List Nat) (h : ∀ w ∈ ws, w < 2 ^ 64) :
    chunk8 ((ws.map w64ToBytes).flatten) = ws := by
  rw [chunk8_w64_flatten]
  exact List.map_congr_left (fun w hw => Nat.mod_eq_of_lt (h w hw)) |>.trans (List.map_id ws)

theorem readFill_of_full (got : List Nat) (h : got.length = want) :
    readFill got want = got := by
  simp [readFill, h]

theorem readFill_length (got : List Nat) (want : Nat) (h : got.length ≤ want) :
    (readFill got want).length = want := by
  simp [readFill]
  omega

/-! ## Claim theorems -/

/-- Claim C2 (code bug): on a stream whose valid header claims
`num_components = 2` but where only one component's worth of bytes remains,
the short component read sets the return code to -1, but execution continues:
the identifier size derived from the partially filled buffer is 0, the
zero-byte OST read "succeeds", and the final code is overwritten with 1 —
so the call returns success and delivers a record whose second component was
never read from the stream, instead of the negative result the claim
requires. -/
theorem lustre_get_truncated_components_masked :
    darshan_log_get_lustre_record ⟨lustre_truncated_stream, DARSHAN_LUSTRE_VER, false⟩ none =
      ⟨1, some ⟨⟨7, 3⟩, 2, [lustre_zero_component, lustre_zero_component], []⟩,
        true, [MemEvent.alloc, MemEvent.realloc], 144, 0⟩
    ∧ lustre_truncated_stream.length = lustre_fixed_size + sizeof_lustre_component := by
  decide

/-- Claim C4 (code bug): a header-only stream with `num_components = 0`
leaves the return code at the 24-byte header size, so the final delivery
test `ret == 1` fails: with a NULL caller buffer the freshly built
empty-arrays record is freed and `*lustre_buf_p` stays NULL even though the
call reports success.  (With a caller-supplied buffer the empty record is
populated, and re-encoding it writes exactly the header size, as the claim
says.) -/
theorem lustre_get_zero_components_not_delivered :
    darshan_log_get_lustre_record ⟨lustre_empty_stream, DARSHAN_LUSTRE_VER, false⟩ none =
      ⟨24, none, false, [MemEvent.alloc, MemEvent.free], 0, 0⟩
    ∧ (darshan_log_get_lustre_record ⟨lustre_empty_stream, DARSHAN_LUSTRE_VER, false⟩
        (some ⟨⟨0, 0⟩, 0, [], []⟩)).out = some lustre_empty_record
    ∧ (darshan_log_put_lustre_record lustre_empty_record).written.length = lustre_fixed_size := by
  decide

/-- Claim C7 (amended): the Lustre `print_diff` emits no output lines for any
pair of optional records — its entire comparison body is disabled dead code
written for the legacy single-component shape. -/
theorem lustre_record_diff_emits_nothing (rec1 : Option darshan_lustre_record)
    (n1 : String) (rec2 : Option darshan_lustre_record) (n2 : String) :
    darshan_log_print_lustre_record_diff rec1 n1 rec2 n2 = [] := rfl

/-- Counterexample to claim C7 as stated: with the first record present and
the second absent, the claim requires a one-sided "-" line for every field,
but the diff emits no lines at all. -/
theorem lustre_record_diff_counterexample :
    darshan_log_print_lustre_record_diff (some lustre_sample_record) diff_log_name1
      none diff_log_name2 = [] := rfl

/-- Claim C8 (code bug): the three cited renderings hold (0b101 gives
"stale,prefwr", 0 gives "0", the all-ones sentinel gives "N/A"), but the
general joined-labels clause fails: the 64-byte assembly buffer truncates any
set-bit combination whose joined labels exceed 63 characters.  For flag value
0x1FF (bits 0-8) the label "compress," is clipped to the remaining space
(the C strncat also writes its terminating NUL one byte past the array), so
the printed string ends in "compre" instead of "compress". -/
theorem lustre_flag_string_truncated :
    lustre_flag_string 5 = r"stale,prefwr".data
    ∧ lustre_flag_string 0 = r"0".data
    ∧ lustre_flag_string (-1) = r"N/A".data
    ∧ lustre_flag_string 511 =
        r"stale,prefrd,prefwr,offline,init,nosync,extension,parity,compre".data
    ∧ lustre_flag_string 511 ≠
        r"stale,prefrd,prefwr,offline,init,nosync,extension,parity,compress".data := by
  decide

/-- Claim C9 (amended): the stdio put ignores its `ver` argument and always
tags the written record with the module's current format version. -/
theorem put_stdio_ignores_requested_version (f : darshan_stdio_file) (ver : Nat) :
    (darshan_log_put_stdio_record f ver).version = DARSHAN_STDIO_VER := rfl

/-- Counterexample to claim C9 as stated: requesting target version 3 writes
a record tagged with version 2 (`DARSHAN_STDIO_VER`), not the requested
version. -/
theorem put_stdio_version_counterexample :
    (darshan_log_put_stdio_record stdio_sample_record 3).version = DARSHAN_STDIO_VER
    ∧ (darshan_log_put_stdio_record stdio_sample_record 3).version ≠ 3 := by
  decide

/-- Claim C3: decoding a legacy (version-1) block of seven 8-byte values with
stripe size 65536 and stripe count 4 in the 6th and 7th positions, followed by
the four identifiers 1,2,3,4, yields a record with one component whose
stripe-size is 65536, stripe-count 4, pattern/flags/mirror-id -1, extent
start 0, extent end -1, an empty pool name, and the identifiers 1,2,3,4 in
order.  The three unused block words are ignored (they may be anything). -/
theorem lustre_v1_upgrade (a b c d e : Nat) :
    darshan_log_get_lustre_record_v1
      ⟨(([a, b, c, d, e, 65536, 4].map w64ToBytes).flatten)
        ++ (([1, 2, 3, 4].map w64ToBytes).flatten), 1, false⟩ none =
      ⟨1, some ⟨⟨a % 2 ^ 64, toInt64 (b % 2 ^ 64)⟩, 1,
        [⟨[65536, 4, -1, -1, 0, -1, -1], List.replicate LUSTRE_POOL_NAME_LEN 0⟩],
        [1, 2, 3, 4]⟩, true, [MemEvent.alloc], 0, 32⟩ := by
  have hA : (([a, b, c, d, e, (65536 : Nat), 4].map w64ToBytes).flatten).length = 56 := by
    rw [w64_flatten_length]; rfl
  have hB : (([1, 2, 3, 4].map w64ToBytes).flatten).length = 32 := by
    rw [w64_flatten_length]; rfl
  simp only [darshan_log_get_lustre_record_v1, List.take_left' hA, List.drop_left' hA,
    chunk8_w64_flatten, hB]
  norm_num
  have h4 : toInt64 4 = 4 := by decide
  have h65536 : toInt64 65536 = 65536 := by decide
  simp [w64ToBytes_length, h4, h65536, chunk8_append, chunk8_w64ToBytes, readFill,
    List.take_of_length_le, bytesToW64_w64ToBytes]

/-- Helper for C10: the stdio get with a caller-supplied buffer performs no
heap traffic and never assigns the caller's buffer pointer. -/
theorem stdio_get_caller_mode_frame (fd : darshan_fd) (s0 : darshan_stdio_file) :
    (darshan_log_get_stdio_record fd (some s0)).events = []
    ∧ (darshan_log_get_stdio_record fd (some s0)).ptr_written = false := by
  unfold darshan_log_get_stdio_record
  simp only [Option.isNone_some, Bool.false_eq_true, if_false]
  constructor <;> (repeat first | split | rfl)

/-- Helper for C10: same frame property for the legacy Lustre path. -/
theorem lustre_v1_caller_mode_frame (fd : darshan_fd) (l0 : darshan_lustre_record) :
    (darshan_log_get_lustre_record_v1 fd (some l0)).events = []
    ∧ (darshan_log_get_lustre_record_v1 fd (some l0)).ptr_written = false := by
  unfold darshan_log_get_lustre_record_v1
  simp only [Option.isNone_some, Bool.false_eq_true, if_false]
  constructor <;> (repeat first | split | rfl)

/-- Helper for C10: same frame property for the variable-length Lustre get. -/
theorem lustre_get_caller_mode_frame (fd : darshan_fd) (l0 : darshan_lustre_record) :
    (darshan_log_get_lustre_record fd (some l0)).events = []
    ∧ (darshan_log_get_lustre_record fd (some l0)).ptr_written = false := by
  unfold darshan_log_get_lustre_record
  simp only [Option.isNone_some, Bool.false_eq_true, if_false]
  constructor <;>
    (repeat
      first
        | split
        | rfl
        | exact (lustre_v1_caller_mode_frame fd l0).1
        | exact (lustre_v1_caller_mode_frame fd l0).2)

/-- Claim C10: with a caller-supplied (non-NULL) record buffer, neither
module's get performs any allocation, reallocation or free, and the caller's
buffer pointer is never reassigned, whether the call succeeds or fails; heap
traffic happens only in the NULL-buffer mode.  This holds for every stream,
version and byte-order flag. -/
theorem get_record_caller_buffer_frame (fd : darshan_fd)
    (s0 : darshan_stdio_file) (l0 : darshan_lustre_record) :
    (darshan_log_get_stdio_record fd (some s0)).events = []
    ∧ (darshan_log_get_stdio_record fd (some s0)).ptr_written = false
    ∧ (darshan_log_get_lustre_record fd (some l0)).events = []
    ∧ (darshan_log_get_lustre_record fd (some l0)).ptr_written = false :=
  ⟨(stdio_get_caller_mode_frame fd s0).1, (stdio_get_caller_mode_frame fd s0).2,
   (lustre_get_caller_mode_frame fd l0).1, (lustre_get_caller_mode_frame fd l0).2⟩

/-- Helper for C6: stdio return codes — 1 exactly on a full-record read, 0
exactly on an absent or short region. -/
theorem stdio_get_ret_codes (fd : darshan_fd) (buf : Option darshan_stdio_file) :
    ((darshan_log_get_stdio_record fd buf).ret = 1 ↔ sizeof_darshan_stdio_file ≤ fd.stream.length)
    ∧ ((darshan_log_get_stdio_record fd buf).ret = 0 ↔ fd.stream.length < sizeof_darshan_stdio_file) := by
  have hsz : sizeof_darshan_stdio_file = 240 := rfl
  unfold darshan_log_get_stdio_record
  refine ⟨?_, ?_⟩
  all_goals dsimp only
  all_goals repeat' split
  all_goals dsimp only
  all_goals simp only [List.length_take, hsz, decide_eq_true_eq, ← min_def,
    true_iff, iff_true, false_iff, iff_false, true_or, or_true] at *
  all_goals omega

/-- Helper for C6: the legacy upgrader's return codes. -/
theorem lustre_v1_get_ret_codes (fd : darshan_fd) (buf : Option darshan_lustre_record) :
    ((darshan_log_get_lustre_record_v1 fd buf).ret = -1
      ∨ (darshan_log_get_lustre_record_v1 fd buf).ret = 0
      ∨ (darshan_log_get_lustre_record_v1 fd buf).ret = 1)
    ∧ ((darshan_log_get_lustre_record_v1 fd buf).ret = 0 ↔ fd.stream.length < 56) := by
  unfold darshan_log_get_lustre_record_v1
  refine ⟨?_, ?_⟩
  all_goals dsimp only
  all_goals repeat' split
  all_goals dsimp only
  all_goals simp only [List.length_take, ← min_def,
    true_iff, iff_true, false_iff, iff_false, true_or, or_true] at *
  all_goals omega

/-- Helper for C6: the variable-length get's return codes. -/
theorem lustre_get_ret_codes (fd : darshan_fd) (buf : Option darshan_lustre_record) :
    ((darshan_log_get_lustre_record fd buf).ret = -1
      ∨ (darshan_log_get_lustre_record fd buf).ret = 0
      ∨ (darshan_log_get_lustre_record fd buf).ret = 1
      ∨ (darshan_log_get_lustre_record fd buf).ret = 24)
    ∧ ((darshan_log_get_lustre_record fd buf).ret = 0 ↔
        (fd.stream.length = 0
          ∨ (1 ≤ fd.mod_ver ∧ fd.mod_ver ≤ DARSHAN_LUSTRE_VER
             ∧ fd.stream.length < (if fd.mod_ver = 1 then 56 else lustre_fixed_size)))) := by
  have h1 := (lustre_v1_get_ret_codes fd buf).1
  have h2 := (lustre_v1_get_ret_codes fd buf).2
  have hver : DARSHAN_LUSTRE_VER = 2 := rfl
  have hfx : lustre_fixed_size = 24 := rfl
  have hret0 : lustre_ret0 fd = ((min lustre_fixed_size fd.stream.length : Nat) : Int) := by
    simp [lustre_ret0, lustre_hdr_got, List.length_take]
  have hret2 : lustre_ret2 fd = -1 ∨ lustre_ret2 fd = 1 := by
    unfold lustre_ret2
    split <;> simp
  unfold darshan_log_get_lustre_record
  refine ⟨?_, ?_⟩
  all_goals repeat' split
  all_goals simp only [hret0, hver, hfx, not_or,
    true_iff, iff_true, false_iff, iff_false, true_or, or_true] at *
  all_goals omega

/-- Claim C6 (amended): the gets signal 0 for an absent or cleanly exhausted
region — including one shorter than the record's fixed prefix — a negative
value only for failures, and a fixed positive code on success: the stdio get
returns 1 exactly when a full record's bytes are available (its -1 needs a
stream I/O error, which the model's container never produces), and the
lustre get returns only -1, 0, 1 or 24, returning 0 exactly when the region
is absent or, under a supported version, shorter than that version's fixed
prefix.  The positive success code is not the number of bytes decoded. -/
theorem get_record_return_codes (fd : darshan_fd) (sbuf : Option darshan_stdio_file)
    (lbuf : Option darshan_lustre_record) :
    ((darshan_log_get_stdio_record fd sbuf).ret = 1 ↔ sizeof_darshan_stdio_file ≤ fd.stream.length)
    ∧ ((darshan_log_get_stdio_record fd sbuf).ret = 0 ↔ fd.stream.length < sizeof_darshan_stdio_file)
    ∧ ((darshan_log_get_lustre_record fd lbuf).ret = -1
        ∨ (darshan_log_get_lustre_record fd lbuf).ret = 0
        ∨ (darshan_log_get_lustre_record fd lbuf).ret = 1
        ∨ (darshan_log_get_lustre_record fd lbuf).ret = 24)
    ∧ ((darshan_log_get_lustre_record fd lbuf).ret = 0 ↔
        (fd.stream.length = 0
          ∨ (1 ≤ fd.mod_ver ∧ fd.mod_ver ≤ DARSHAN_LUSTRE_VER
             ∧ fd.stream.length < (if fd.mod_ver = 1 then 56 else lustre_fixed_size)))) :=
  ⟨(stdio_get_ret_codes fd sbuf).1, (stdio_get_ret_codes fd sbuf).2,
   (lustre_get_ret_codes fd lbuf).1, (lustre_get_ret_codes fd lbuf).2⟩

set_option maxRecDepth 4000 in
/-- Counterexample to claim C6 as stated: decoding a full 240-byte stdio
record succeeds with return value 1, which is not the number of bytes decoded
(the record size, 240). -/
theorem get_record_return_codes_counterexample :
    (darshan_log_get_stdio_record ⟨List.replicate 240 0, DARSHAN_STDIO_VER, false⟩ none).ret = 1
    ∧ (1 : Int) ≠ (sizeof_darshan_stdio_file : Int) := by
  decide

/-- Claim C5: in the variable-length read path with the byte-order-mismatch
flag set, the two base-record fields and `num_comps` are byte-reversed before
any size computation: the component-region size `comps_size` is always
`toInt64 (bswap64 raw_count) * sizeof(component)` where `raw_count` is the
third raw on-disk header word, every record handed back carries the swapped
header fields, and the identifier-region size is derived from the stripe
counts of the swapped components. -/
theorem lustre_swap_normalized_sizes (fd : darshan_fd) (buf : Option darshan_lustre_record)
    (hswap : fd.swap_flag = true) (hver : fd.mod_ver = DARSHAN_LUSTRE_VER)
    (hlen : lustre_fixed_size ≤ fd.stream.length) :
    (darshan_log_get_lustre_record fd buf).comps_size
        = toInt64 (bswap64 ((chunk8 (fd.stream.take lustre_fixed_size)).getD 2 0))
          * (sizeof_lustre_component : Nat)
    ∧ ∀ R, (darshan_log_get_lustre_record fd buf).out = some R →
        R.num_comps = toInt64 (bswap64 ((chunk8 (fd.stream.take lustre_fixed_size)).getD 2 0))
        ∧ R.base_rec.id = bswap64 ((chunk8 (fd.stream.take lustre_fixed_size)).getD 0 0)
        ∧ R.base_rec.rank = toInt64 (bswap64 ((chunk8 (fd.stream.take lustre_fixed_size)).getD 1 0))
        ∧ (darshan_log_get_lustre_record fd buf).osts_size = lustre_num_osts R.comps * 8 := by
  have hfx : lustre_fixed_size = 24 := rfl
  have hne : ¬ fd.stream.length = 0 := by omega
  have hret0 : lustre_ret0 fd = 24 := by
    unfold lustre_ret0 lustre_hdr_got
    rw [List.length_take]
    omega
  have hw : ∀ i, lustre_hdr_word fd i = bswap64 ((chunk8 (fd.stream.take lustre_fixed_size)).getD i 0) := by
    intro i
    unfold lustre_hdr_word lustre_hdr_got
    rw [hswap]
    simp
  unfold darshan_log_get_lustre_record
  rw [if_neg hne, if_neg (by rw [hver]; decide), if_neg (by rw [hver]; decide),
    if_neg (by rw [hret0]; norm_num), if_neg (by rw [hret0, hfx]; norm_num)]
  split
  · split
    · refine ⟨?_, ?_⟩
      · simp [lustre_comps_size, lustre_nc, hw]
      · intro R hR
        simp at hR
    · refine ⟨?_, ?_⟩
      · simp [lustre_comps_size, lustre_nc, hw]
      · intro R hR
        simp [lustre_rec0, lustre_base, lustre_nc, hw] at hR
        subst hR
        simp [lustre_rec0, lustre_base, lustre_nc, hw, lustre_num_osts]
  · split
    · split
      · refine ⟨?_, ?_⟩
        · simp [lustre_comps_size, lustre_nc, hw]
        · intro R hR
          simp at hR
          subst hR
          simp [lustre_rec2, lustre_base, lustre_nc, hw, lustre_osts_size]
      · refine ⟨?_, ?_⟩
        · simp [lustre_comps_size, lustre_nc, hw]
        · intro R hR
          simp at hR
    · refine ⟨?_, ?_⟩
      · simp [lustre_comps_size, lustre_nc, hw]
      · intro R hR
        simp at hR
        subst hR
        simp [lustre_rec2, lustre_base, lustre_nc, hw, lustre_osts_size]

/-- Witness for C5 at a concrete input: a 24-byte stream of zero bytes read
with the byte-order flag set. -/
theorem lustre_swap_normalized_sizes_witness :
    (darshan_fd.mk (List.replicate 24 0) DARSHAN_LUSTRE_VER true).swap_flag = true
    ∧ (darshan_fd.mk (List.replicate 24 0) DARSHAN_LUSTRE_VER true).mod_ver = DARSHAN_LUSTRE_VER
    ∧ lustre_fixed_size ≤ (darshan_fd.mk (List.replicate 24 0) DARSHAN_LUSTRE_VER true).stream.length
    ∧ (darshan_log_get_lustre_record (darshan_fd.mk (List.replicate 24 0) DARSHAN_LUSTRE_VER true) none).comps_size
        = toInt64 (bswap64 ((chunk8 ((darshan_fd.mk (List.replicate 24 0) DARSHAN_LUSTRE_VER true).stream.take lustre_fixed_size)).getD 2 0))
          * (sizeof_lustre_component : Nat) :=
  ⟨rfl, rfl, by decide,
   (lustre_swap_normalized_sizes (darshan_fd.mk (List.replicate 24 0) DARSHAN_LUSTRE_VER true)
      none rfl rfl (by decide)).1⟩

theorem parseComponents_length (swap : Bool) (n : Nat) (bs : List Nat) :
    (parseComponents swap n bs).length = n := by
  induction n generalizing bs with
  | zero => rfl
  | succ k ih => simp [parseComponents, ih]

theorem getD_lt_of_all (l : List Nat) (hl : ∀ w ∈ l, w < 2 ^ 64) (i : Nat) :
    l.getD i 0 < 2 ^ 64 := by
  induction l generalizing i with
  | nil => simp [List.getD]
  | cons a t ih =>
    cases i with
    | zero => simpa using hl a (by simp)
    | succ j => simpa using ih (fun w hw => hl w (by simp [hw])) j

theorem chunk8_getD_lt (bs : List Nat) (i : Nat) : (chunk8 bs).getD i 0 < 2 ^ 64 :=
  getD_lt_of_all _ (chunk8_mem_lt bs) i

theorem parseComponent_wf (swap : Bool) (bs : List Nat) (h : bs.length = 72) :
    LustreCompWF (parseComponent swap bs) := by
  have e1 : (8 : Nat) * LUSTRE_COMP_NUM_INDICES = 56 := rfl
  have e2 : LUSTRE_POOL_NAME_LEN = 16 := rfl
  unfold LustreCompWF parseComponent
  rw [e1, e2]
  refine ⟨?_, ?_, ?_⟩
  · rw [List.length_map, chunk8_length_mul 7 _ (by rw [List.length_take]; omega)]
    rfl
  · rw [List.length_take, List.length_drop]
    omega
  · intro x hx
    simp only [List.mem_map] at hx
    obtain ⟨w, hw, rfl⟩ := hx
    have hwlt : w < 2 ^ 64 := chunk8_mem_lt _ _ hw
    constructor
    · exact toInt64_lb _
    · split
      · exact toInt64_ub _ (bswap64_lt _)
      · exact toInt64_ub _ hwlt

theorem parseComponents_wf (swap : Bool) : ∀ (n : Nat) (bs : List Nat),
    bs.length = n * 72 → ∀ c ∈ parseComponents swap n bs, LustreCompWF c := by
  have e : sizeof_lustre_component = 72 := rfl
  intro n
  induction n with
  | zero => intro bs h c hc; simp [parseComponents] at hc
  | succ k ih =>
    intro bs h c hc
    simp only [parseComponents, List.mem_cons] at hc
    rcases hc with rfl | hc
    · exact parseComponent_wf swap _ (by rw [List.length_take, e]; omega)
    · exact ih (bs.drop sizeof_lustre_component)
        (by rw [List.length_drop, e]; omega) c hc

theorem serialize_base_length (b : darshan_base_record) : (serialize_base b).length = 16 := by
  simp [serialize_base, w64ToBytes_length]

theorem w64_toW64_flatten_length (xs : List Int) :
    ((xs.map (fun i => w64ToBytes (toW64 i))).flatten).length = 8 * xs.length := by
  have hmm : xs.map (fun i => w64ToBytes (toW64 i)) = (xs.map toW64).map w64ToBytes := by
    rw [List.map_map]
    rfl
  rw [hmm, w64_flatten_length, List.length_map]

theorem serialize_component_length (c : darshan_lustre_component) (h : LustreCompWF c) :
    (serialize_component c).length = 72 := by
  obtain ⟨h1, h2, _⟩ := h
  unfold serialize_component
  rw [List.length_append, w64_toW64_flatten_length, h1, h2]
  rfl

theorem comps_flatten_length (cs : List darshan_lustre_component)
    (h : ∀ c ∈ cs, LustreCompWF c) :
    ((cs.map serialize_component).flatten).length = 72 * cs.length := by
  induction cs with
  | nil => rfl
  | cons c t ih =>
    simp only [List.map_cons, List.flatten_cons, List.length_append, List.length_cons]
    rw [serialize_component_length c (h c (by simp)), ih (fun x hx => h x (by simp [hx]))]
    ring

theorem parseComponent_serialize (c : darshan_lustre_component) (h : LustreCompWF c) :
    parseComponent false (serialize_component c) = c := by
  obtain ⟨h1, h2, h3⟩ := h
  have hmm : c.counters.map (fun i => w64ToBytes (toW64 i)) = (c.counters.map toW64).map w64ToBytes := by
    rw [List.map_map]
    rfl
  have hF : ((c.counters.map (fun i => w64ToBytes (toW64 i))).flatten).length = 56 := by
    rw [w64_toW64_flatten_length, h1]
    rfl
  have hlt : ∀ w ∈ c.counters.map toW64, w < 2 ^ 64 := by
    intro w hw
    simp only [List.mem_map] at hw
    obtain ⟨i, _, rfl⟩ := hw
    exact toW64_lt i
  have ht : (8 : Nat) * LUSTRE_COMP_NUM_INDICES = 56 := rfl
  unfold parseComponent serialize_component
  rw [ht, List.take_left' hF, List.drop_left' hF, hmm, chunk8_w64_flatten_of_lt _ hlt]
  simp only [Bool.false_eq_true, if_false, List.map_map]
  have hcnt : c.counters.map ((fun w => toInt64 w) ∘ toW64) = c.counters := by
    refine (List.map_congr_left ?_).trans (List.map_id _)
    intro i hi
    exact toInt64_toW64 i (h3 i hi).1 (h3 i hi).2
  rw [List.take_of_length_le (le_of_eq h2), hcnt]

theorem parseComponents_serialize (cs : List darshan_lustre_component)
    (h : ∀ c ∈ cs, LustreCompWF c) :
    parseComponents false cs.length ((cs.map serialize_component).flatten) = cs := by
  induction cs with
  | nil => rfl
  | cons c t ih =>
    have hc : LustreCompWF c := h c (by simp)
    have h72 : (serialize_component c).length = sizeof_lustre_component :=
      serialize_component_length c hc
    simp only [List.length_cons, List.map_cons, List.flatten_cons, parseComponents]
    rw [List.take_left' h72, List.drop_left' h72, parseComponent_serialize c hc,
      ih (fun x hx => h x (by simp [hx]))]

/-- Helper for C1: in the NULL-buffer mode a record comes back through
`*lustre_buf_p` only on the full num_comps>=1 success path, and it is exactly
the assembled `lustre_rec2`. -/
theorem lustre_get_alloc_delivered (fd : darshan_fd) (R : darshan_lustre_record)
    (hver : fd.mod_ver = DARSHAN_LUSTRE_VER)
    (hout : (darshan_log_get_lustre_record fd none).out = some R) :
    R = lustre_rec2 fd ∧ ¬ lustre_nc fd < 1 ∧ lustre_ret2 fd = 1
      ∧ ¬ lustre_ret0 fd < (lustre_fixed_size : Nat) := by
  unfold darshan_log_get_lustre_record at hout
  split at hout
  · simp at hout
  · split at hout
    · simp at hout
    · split at hout
      · rename_i h3
        rw [hver] at h3
        exact absurd h3 (by decide)
      · split at hout
        · simp at hout
        · split at hout
          · simp at hout
          · split at hout
            · simp at hout
            · simp only [Option.isNone_none, if_true] at hout
              split at hout
              · rename_i hnc hr2
                refine ⟨by simpa using hout.symm, hnc, hr2, by assumption⟩
              · simp at hout

/-- Helper for C1: every (possibly swapped) header word fits in 64 bits. -/
theorem lustre_hdr_word_lt (fd : darshan_fd) (i : Nat) : lustre_hdr_word fd i < 2 ^ 64 := by
  unfold lustre_hdr_word
  split
  · exact bswap64_lt _
  · exact chunk8_getD_lt _ _

/-- Helper for C1: a record delivered by the current-format read path with a
nonnegative stripe-count sum satisfies the structural invariant. -/
theorem lustre_delivered_wf (fd : darshan_fd) (R : darshan_lustre_record)
    (hver : fd.mod_ver = DARSHAN_LUSTRE_VER)
    (hout : (darshan_log_get_lustre_record fd none).out = some R)
    (hosts : 0 ≤ lustre_num_osts R.comps) : LustreWF R := by
  obtain ⟨rfl, hnc, hr2, hret0⟩ := lustre_get_alloc_delivered fd R hver hout
  have hosts2 : 0 ≤ lustre_num_osts (lustre_comps fd) := hosts
  have hnc1 : 1 ≤ lustre_nc fd := by omega
  have hncw : lustre_nc fd < 2 ^ 63 := toInt64_ub _ (lustre_hdr_word_lt fd 2)
  have hsz : sizeof_lustre_component = 72 := rfl
  have hcsize : (lustre_comps_size fd).toNat = (lustre_nc fd).toNat * 72 := by
    unfold lustre_comps_size
    rw [hsz]
    omega
  have hbufC : (readFill (lustre_gotC fd) (lustre_comps_size fd).toNat).length
      = (lustre_nc fd).toNat * 72 := by
    rw [readFill_length _ _ (by unfold lustre_gotC; rw [List.length_take]; omega), hcsize]
  have hcompsWF : ∀ c ∈ lustre_comps fd, LustreCompWF c := by
    intro c hc
    exact parseComponents_wf fd.swap_flag (lustre_nc fd).toNat _ hbufC c hc
  have hosize : (lustre_osts_size fd).toNat = 8 * (lustre_num_osts (lustre_comps fd)).toNat := by
    unfold lustre_osts_size
    omega
  have hbufO : (readFill (lustre_gotO fd) (lustre_osts_size fd).toNat).length
      = 8 * (lustre_num_osts (lustre_comps fd)).toNat := by
    rw [readFill_length _ _ (by unfold lustre_gotO; rw [List.length_take]; omega), hosize]
  have hidlen : (lustre_ids fd).length = (lustre_num_osts (lustre_comps fd)).toNat := by
    unfold lustre_ids
    split
    · rw [List.length_map, chunk8_length_mul _ _ hbufO]
    · rw [chunk8_length_mul _ _ hbufO]
  refine ⟨hnc1, hncw, lustre_hdr_word_lt fd 0, toInt64_lb _,
    toInt64_ub _ (lustre_hdr_word_lt fd 1), ?_, hcompsWF, ?_, ?_⟩
  · show ((lustre_comps fd).length : Int) = lustre_nc fd
    unfold lustre_comps
    rw [parseComponents_length]
    omega
  · intro w hw0
    have hw : w ∈ lustre_ids fd := hw0
    unfold lustre_ids at hw
    rcases hif : fd.swap_flag with _ | _
    · rw [hif] at hw
      simp only [Bool.false_eq_true, if_false] at hw
      exact chunk8_mem_lt _ _ hw
    · rw [hif] at hw
      simp only [if_true] at hw
      simp only [List.mem_map] at hw
      obtain ⟨v, _, rfl⟩ := hw
      exact bswap64_lt v
  · show ((lustre_ids fd).length : Int) = lustre_num_osts (lustre_comps fd)
    rw [hidlen]
    omega

/-- Helper for C1: encoding a well-formed record and decoding the produced
bytes (byte-order flag clear) delivers the identical record. -/
theorem lustre_put_then_get (R : darshan_lustre_record) (h : LustreWF R) :
    (darshan_log_get_lustre_record
        ⟨(darshan_log_put_lustre_record R).written, DARSHAN_LUSTRE_VER, false⟩ none).out
      = some R := by
  obtain ⟨h1, h2, hid, hrk1, hrk2, hlen, hcWF, hoLT, holen⟩ := h
  have hCB : ((R.comps.map serialize_component).flatten).length = 72 * R.comps.length :=
    comps_flatten_length R.comps hcWF
  have hOB : ((R.ost_ids.map w64ToBytes).flatten).length = 8 * R.ost_ids.length :=
    w64_flatten_length R.ost_ids
  have hSlen : (serialize_lustre R).length = 24 + 72 * R.comps.length + 8 * R.ost_ids.length := by
    unfold serialize_lustre
    simp only [List.length_append, serialize_base_length, w64ToBytes_length, hCB, hOB]
    try ring
  have hsz72 : sizeof_lustre_component = 72 := rfl
  have hfs : lustre_fixed_size = 24 := rfl
  have hwr : (darshan_log_put_lustre_record R).written = serialize_lustre R := by
    unfold darshan_log_put_lustre_record
    dsimp only
    apply List.take_of_length_le
    unfold LUSTRE_RECORD_SIZE
    rw [hSlen, ← holen, ← hlen, hsz72, hfs]
    push_cast
    omega
  have hhdr24 : (serialize_base R.base_rec ++ w64ToBytes (toW64 R.num_comps)).length
      = lustre_fixed_size := by
    rw [List.length_append, serialize_base_length, w64ToBytes_length]
    rfl
  have hgot : lustre_hdr_got ⟨serialize_lustre R, DARSHAN_LUSTRE_VER, false⟩
      = serialize_base R.base_rec ++ w64ToBytes (toW64 R.num_comps) := by
    unfold lustre_hdr_got
    show (serialize_lustre R).take lustre_fixed_size = _
    unfold serialize_lustre
    rw [List.append_assoc (serialize_base R.base_rec ++ w64ToBytes (toW64 R.num_comps))]
    exact List.take_left' hhdr24
  have hchunkH : chunk8 (serialize_base R.base_rec ++ w64ToBytes (toW64 R.num_comps))
      = [R.base_rec.id, toW64 R.base_rec.rank, toW64 R.num_comps] := by
    unfold serialize_base
    rw [List.append_assoc, chunk8_append _ _ (w64ToBytes_length _),
      chunk8_append _ _ (w64ToBytes_length _), chunk8_w64ToBytes,
      bytesToW64_w64ToBytes, bytesToW64_w64ToBytes,
      Nat.mod_eq_of_lt hid, Nat.mod_eq_of_lt (toW64_lt _), Nat.mod_eq_of_lt (toW64_lt _)]
  have hword : ∀ i, lustre_hdr_word ⟨serialize_lustre R, DARSHAN_LUSTRE_VER, false⟩ i
      = [R.base_rec.id, toW64 R.base_rec.rank, toW64 R.num_comps].getD i 0 := by
    intro i
    unfold lustre_hdr_word
    rw [hgot, hchunkH]
    rfl
  have hbase : lustre_base ⟨serialize_lustre R, DARSHAN_LUSTRE_VER, false⟩ = R.base_rec := by
    unfold lustre_base
    rw [hword 0, hword 1]
    show darshan_base_record.mk R.base_rec.id (toInt64 (toW64 R.base_rec.rank)) = R.base_rec
    rw [toInt64_toW64 _ hrk1 hrk2]
  have hnc' : lustre_nc ⟨serialize_lustre R, DARSHAN_LUSTRE_VER, false⟩ = R.num_comps := by
    unfold lustre_nc
    rw [hword 2]
    exact toInt64_toW64 _ (by omega) h2
  have hS1 : lustre_s1 ⟨serialize_lustre R, DARSHAN_LUSTRE_VER, false⟩
      = (R.comps.map serialize_component).flatten ++ (R.ost_ids.map w64ToBytes).flatten := by
    unfold lustre_s1
    show (serialize_lustre R).drop lustre_fixed_size = _
    unfold serialize_lustre
    rw [List.append_assoc (serialize_base R.base_rec ++ w64ToBytes (toW64 R.num_comps))]
    exact List.drop_left' hhdr24
  have hcsize' : (lustre_comps_size ⟨serialize_lustre R, DARSHAN_LUSTRE_VER, false⟩).toNat
      = 72 * R.comps.length := by
    unfold lustre_comps_size
    rw [hnc', hsz72, ← hlen]
    push_cast
    omega
  have hgotC : lustre_gotC ⟨serialize_lustre R, DARSHAN_LUSTRE_VER, false⟩
      = (R.comps.map serialize_component).flatten := by
    unfold lustre_gotC
    rw [hS1, hcsize']
    exact List.take_left' hCB
  have hcomps' : lustre_comps ⟨serialize_lustre R, DARSHAN_LUSTRE_VER, false⟩ = R.comps := by
    unfold lustre_comps
    rw [hgotC, hcsize', readFill_of_full _ hCB, hnc']
    have hn : (R.num_comps).toNat = R.comps.length := by omega
    rw [hn]
    exact parseComponents_serialize R.comps hcWF
  have hno : lustre_num_osts (lustre_comps ⟨serialize_lustre R, DARSHAN_LUSTRE_VER, false⟩)
      = (R.ost_ids.length : Int) := by
    rw [hcomps']
    omega
  have hosize' : (lustre_osts_size ⟨serialize_lustre R, DARSHAN_LUSTRE_VER, false⟩).toNat
      = 8 * R.ost_ids.length := by
    unfold lustre_osts_size
    rw [hno]
    omega
  have hS2 : lustre_s2 ⟨serialize_lustre R, DARSHAN_LUSTRE_VER, false⟩
      = (R.ost_ids.map w64ToBytes).flatten := by
    unfold lustre_s2
    rw [hS1, hcsize']
    exact List.drop_left' hCB
  have hgotO : lustre_gotO ⟨serialize_lustre R, DARSHAN_LUSTRE_VER, false⟩
      = (R.ost_ids.map w64ToBytes).flatten := by
    unfold lustre_gotO
    rw [hS2, hosize']
    exact List.take_of_length_le (le_of_eq hOB)
  have hids : lustre_ids ⟨serialize_lustre R, DARSHAN_LUSTRE_VER, false⟩ = R.ost_ids := by
    unfold lustre_ids
    rw [hgotO, readFill_of_full _ (by rw [hOB, hosize'])]
    show chunk8 ((R.ost_ids.map w64ToBytes).flatten) = R.ost_ids
    exact chunk8_w64_flatten_of_lt _ hoLT
  have hretO : lustre_retO ⟨serialize_lustre R, DARSHAN_LUSTRE_VER, false⟩
      = ((8 * R.ost_ids.length : Nat) : Int) := by
    unfold lustre_retO
    rw [hgotO, hOB]
  have hosz : lustre_osts_size ⟨serialize_lustre R, DARSHAN_LUSTRE_VER, false⟩
      = (R.ost_ids.length : Int) * 8 := by
    unfold lustre_osts_size
    rw [hno]
  have hret2 : lustre_ret2 ⟨serialize_lustre R, DARSHAN_LUSTRE_VER, false⟩ = 1 := by
    unfold lustre_ret2
    rw [if_neg]
    rw [hretO, hosz]
    push_cast
    omega
  have hrec : lustre_rec2 ⟨serialize_lustre R, DARSHAN_LUSTRE_VER, false⟩ = R := by
    unfold lustre_rec2
    rw [hbase, hnc', hcomps', hids]
  have hret0' : lustre_ret0 ⟨serialize_lustre R, DARSHAN_LUSTRE_VER, false⟩ = 24 := by
    unfold lustre_ret0 lustre_hdr_got
    show ((serialize_lustre R).take lustre_fixed_size).length = (24 : Int)
    rw [List.length_take, hSlen, hfs]
    push_cast
    omega
  have hv1 : ¬((⟨serialize_lustre R, DARSHAN_LUSTRE_VER, false⟩ : darshan_fd).mod_ver = 0
      ∨ (⟨serialize_lustre R, DARSHAN_LUSTRE_VER, false⟩ : darshan_fd).mod_ver > DARSHAN_LUSTRE_VER) := by
    show ¬(DARSHAN_LUSTRE_VER = 0 ∨ DARSHAN_LUSTRE_VER > DARSHAN_LUSTRE_VER)
    decide
  have hv2 : ¬(⟨serialize_lustre R, DARSHAN_LUSTRE_VER, false⟩ : darshan_fd).mod_ver = 1 := by
    show ¬ DARSHAN_LUSTRE_VER = 1
    decide
  rw [hwr]
  unfold darshan_log_get_lustre_record
  rw [if_neg (by show ¬ (serialize_lustre R).length = 0; omega),
    if_neg hv1, if_neg hv2,
    if_neg (by rw [hret0']; norm_num),
    if_neg (by rw [hret0', hfs]; norm_num),
    if_neg (by rw [hnc']; omega)]
  simp only [Option.isNone_none, if_true]
  rw [if_pos hret2]
  rw [hrec]

/-- Claim C1: for every record obtained by a successful decode of valid
current-format bytes (delivered through a NULL `*lustre_buf_p`; validity means
the decoded stripe counts sum to a nonnegative identifier count), serializing
it with put_record and decoding the produced bytes again with the byte-order
flag clear yields a record equal to it in the base record, num_comps, every
component's counters and pool name, and every identifier, in order. -/
theorem lustre_decode_encode_decode (fd : darshan_fd) (R : darshan_lustre_record)
    (hver : fd.mod_ver = DARSHAN_LUSTRE_VER)
    (hget : (darshan_log_get_lustre_record fd none).out = some R)
    (hvalid : 0 ≤ lustre_num_osts R.comps) :
    (darshan_log_get_lustre_record
        ⟨(darshan_log_put_lustre_record R).written, DARSHAN_LUSTRE_VER, false⟩ none).out
      = some R :=
  lustre_put_then_get R (lustre_delivered_wf fd R hver hget hvalid)

set_option maxRecDepth 4000 in
/-- Witness for C1 at a concrete input: a one-component record with stripe
count 2, a nonempty pool name, and identifiers 17, 18. -/
theorem lustre_decode_encode_decode_witness :
    (darshan_fd.mk lustre_sample_stream DARSHAN_LUSTRE_VER false).mod_ver = DARSHAN_LUSTRE_VER
    ∧ (darshan_log_get_lustre_record
        (darshan_fd.mk lustre_sample_stream DARSHAN_LUSTRE_VER false) none).out
        = some lustre_sample_record
    ∧ 0 ≤ lustre_num_osts lustre_sample_record.comps
    ∧ (darshan_log_get_lustre_record
        ⟨(darshan_log_put_lustre_record lustre_sample_record).written,
          DARSHAN_LUSTRE_VER, false⟩ none).out
        = some lustre_sample_record :=
  ⟨rfl, by decide, by decide,
   lustre_decode_encode_decode (darshan_fd.mk lustre_sample_stream DARSHAN_LUSTRE_VER false)
     lustre_sample_record rfl (by decide) (by decide)⟩
